import Mathlib

/-!
Verification development for the single-file Streamlit application
`src/app.py` of the marker_parser repository.

The program is a thin orchestration layer around an external PDF
conversion engine.  We shallowly embed its state and control flow:

* the `@st.cache_resource` cache of `load_model` (app.py lines 27-33)
  becomes an explicit `Option`-valued cache in `AppState` together with a
  construction counter;
* `st.session_state.ocr_result` / `st.session_state.ocr_time`
  (lines 58-62, 92-94) become `Option` fields of `AppState`;
* one Streamlit script rerun, driven by an upload / button-click /
  plain-rerun event, becomes the `step` function; a whole session is a
  `List.foldl` of `step` (`run`);
* the button handler (lines 77-101), with its wall clock, temporary file
  and try/except/finally structure, is embedded in full detail as
  `runConversion`, threading an explicit filesystem (list of existing
  temp paths) and abstract durations;
* the two download buttons (lines 150-167) become `md_export` /
  `txt_export`; the statistics block (lines 169-179) becomes
  `displayedStats`, with Python `str.split()` embedded as `pySplit`.

The external engine is an opaque parameter `engine : Nat → Nat →
EngineOutcome` (handle and document in, text or exception out), exactly
as the code treats `process_pdf`.
-/

namespace MarkerApp

/-- Outcome of the engine boundary `process_pdf(converter, path)`
(app.py lines 35-39): either the extracted text, or a raised exception
message. -/
abbrev EngineOutcome := Except String String

/-- Process plus session state of the application.

`cache` / `loadCount`: the `@st.cache_resource` cache of `load_model`
(lines 27-33) and how many times the underlying construction ran.
`ocr_result` / `ocr_time`: `st.session_state.ocr_result` and
`st.session_state.ocr_time` (lines 58-62), both `None` at first.
`currentDoc`: the currently uploaded file, `none` when no file is
uploaded (line 52).
`resultDoc`: ghost state (not in the code) recording which document the
stored result was produced from; needed only to state staleness claims.
`errorShown`: whether the current rerun executed `st.error` (line 97);
transient, reset at the start of every rerun. -/
structure AppState where
  cache : Option Nat
  loadCount : Nat
  ocr_result : Option String
  ocr_time : Option Nat
  currentDoc : Option Nat
  resultDoc : Option Nat
  errorShown : Bool
deriving Repr, DecidableEq

/-- State at the start of a session: no cached model, no uploaded file,
and both session fields initialized to `None` (app.py lines 58-62). -/
def initState : AppState :=
  { cache := none, loadCount := 0, ocr_result := none, ocr_time := none,
    currentDoc := none, resultDoc := none, errorShown := false }

/-- `load_model` under `@st.cache_resource` (app.py lines 27-33): when a
cached converter exists it is returned and nothing runs; otherwise the
resource-heavy construction runs once, producing the handle `fresh`,
which is cached. -/
def load_model (fresh : Nat) (s : AppState) : Nat × AppState :=
  match s.cache with
  | some h => (h, s)
  | none =>
      (fresh, { s with cache := some fresh, loadCount := s.loadCount + 1 })

/-- User-driven events, each triggering one Streamlit script rerun:
uploading a document, clicking the OCR button (with the wall-clock
durations of temp-file setup and of the engine call), or a plain rerun
(tab switch, etc.). -/
inductive Event where
  | upload (doc : Nat)
  | clickConvert (setupDur convertDur : Nat)
  | rerun
deriving Repr, DecidableEq

/-- One script rerun of `main` (app.py lines 41-188).  Every rerun first
calls `load_model` (line 46).  An upload replaces the current document
(line 52); the code never clears `ocr_result` / `ocr_time` here — lines
58-62 only initialize them when absent.  A button click with a document
present runs lines 77-101: on engine success the text and the elapsed
time (timer started at line 78, before the temp file is written; stopped
at line 90, right after the engine call) are stored into the session
state (lines 93-94); on engine failure the exception is caught, `st.error`
runs, and the session store is untouched (lines 96-97). -/
def step (engine : Nat → Nat → EngineOutcome) (fresh : Nat)
    (s : AppState) (e : Event) : AppState :=
  let h := (load_model fresh s).1
  let s1 := { (load_model fresh s).2 with errorShown := false }
  match e with
  | .upload d => { s1 with currentDoc := some d }
  | .rerun => s1
  | .clickConvert setupDur convertDur =>
      match s1.currentDoc with
      | none => s1
      | some d =>
          match engine h d with
          | .ok text =>
              { s1 with ocr_result := some text,
                        ocr_time := some (setupDur + convertDur),
                        resultDoc := some d }
          | .error _ => { s1 with errorShown := true }

/-- A session starting from `s`: fold `step` over the event list. -/
def runFrom (engine : Nat → Nat → EngineOutcome) (fresh : Nat)
    (s : AppState) (events : List Event) : AppState :=
  events.foldl (step engine fresh) s

/-- A full session from the initial state. -/
def run (engine : Nat → Nat → EngineOutcome) (fresh : Nat)
    (events : List Event) : AppState :=
  runFrom engine fresh initState events

/-- The result text rendered by the display block: it runs only inside
`if uploaded_file is not None` (line 64) and only when
`st.session_state.ocr_result is not None` (line 104). -/
def displayedResult (s : AppState) : Option String :=
  match s.currentDoc with
  | none => none
  | some _ => s.ocr_result

/-- Filesystem abstraction for the temporary artifacts: the list of
currently existing temp-file paths. -/
abbrev FS := List Nat

/-- Observable outcome of one execution of the button handler:
the filesystem afterwards, what (if anything) was written to the session
store, whether an uncaught exception propagated out of the handler,
whether `st.error` ran, and whether deletion of the temp file was
attempted. -/
structure ConvOutcome where
  fs : FS
  stored : Option (String × Nat)
  raised : Bool
  errorMsg : Bool
  removeAttempted : Bool
deriving Repr, DecidableEq

/-- Detailed embedding of the button handler, app.py lines 77-101.

`t0` is the wall clock when the button is pressed; `setupDur` and
`convertDur` are the durations of temp-file creation/writing and of the
engine call; `outcome` is what the engine does on this document;
`removeOk` says whether `os.remove` succeeds.

Control flow of the code: `start_time = time.time()` (line 78); the temp
file `tmpPath` is created and the bytes written (lines 81-83); inside
`try`, the engine runs and on success `elapsed_time` is computed
(line 90) and the result stored (lines 93-94); `except` catches any
engine exception and shows `st.error` (lines 96-97); `finally` checks
`os.path.exists` and calls `os.remove` (lines 98-101) — an exception from
`os.remove` itself is not caught and propagates. -/
def runConversion (fs : FS) (tmpPath t0 setupDur convertDur : Nat)
    (outcome : EngineOutcome) (removeOk : Bool) : ConvOutcome :=
  let start_time := t0
  let fs1 : FS := tmpPath :: fs
  let tSetupDone := t0 + setupDur
  let (stored, errorMsg) :=
    match outcome with
    | .ok text =>
        let elapsed_time := tSetupDone + convertDur - start_time
        (some (text, elapsed_time), false)
    | .error _ => (none, true)
  if tmpPath ∈ fs1 then
    if removeOk then
      { fs := fs1.erase tmpPath, stored := stored, raised := false,
        errorMsg := errorMsg, removeAttempted := true }
    else
      { fs := fs1, stored := stored, raised := true,
        errorMsg := errorMsg, removeAttempted := true }
  else
    { fs := fs1, stored := stored, raised := false,
      errorMsg := errorMsg, removeAttempted := false }

/-- Markdown download button (app.py lines 153-159): file name and
payload.  The payload is exactly the stored text. -/
def md_export (fileName text : String) : String × String :=
  ((fileName.replace ".pdf" "") ++ "_ocr.md", text)

/-- Text download button (app.py lines 161-167): file name and payload.
The payload is exactly the stored text. -/
def txt_export (fileName text : String) : String × String :=
  ((fileName.replace ".pdf" "") ++ "_ocr.txt", text)

/-- Helper for `pySplit`: walks the characters, accumulating the current
(reversed) token; whitespace ends a token, empty tokens are dropped. -/
def pySplitAux : List Char → List Char → List (List Char)
  | [], cur => if cur.isEmpty then [] else [cur.reverse]
  | c :: rest, cur =>
      if c.isWhitespace then
        if cur.isEmpty then pySplitAux rest []
        else cur.reverse :: pySplitAux rest []
      else pySplitAux rest (c :: cur)

/-- Python `str.split()` with no argument (used at app.py line 178):
split on runs of whitespace, with no empty tokens. -/
def pySplit (s : String) : List String :=
  (pySplitAux s.data []).map fun cs => String.mk cs

/-- Statistics block (app.py lines 169-179), rendered from the stored
session fields: elapsed time (line 174), `len(text)` (line 176) and
`len(text.split())` (line 178). -/
def displayedStats (s : AppState) : Option (Nat × Nat × Nat) :=
  match s.ocr_result, s.ocr_time with
  | some text, some t => some (t, text.length, (pySplit text).length)
  | _, _ => none

/-- Helper for `wsTokenCount`: the flag says whether the previous
character was inside a token. -/
def wsTokenCountAux : List Char → Bool → Nat
  | [], _ => 0
  | c :: rest, inTok =>
      if c.isWhitespace then wsTokenCountAux rest false
      else (if inTok then 0 else 1) + wsTokenCountAux rest true

/-- Number of maximal whitespace-separated tokens of a character list,
written from the specification words: the word count is "the number of
tokens obtained by whitespace-splitting the text".  Counts the positions
that start a non-whitespace run. -/
def wsTokenCount (cs : List Char) : Nat := wsTokenCountAux cs false

/-- Results of `n` successive calls of `load_model` within one process,
together with the final process state. -/
def loadN (fresh : Nat) : Nat → AppState → List Nat × AppState
  | 0, s => ([], s)
  | n + 1, s =>
      let r := load_model fresh s
      let rest := loadN fresh n r.2
      (r.1 :: rest.1, rest.2)

/-- A concrete engine used for witnesses: document 1 converts to "A",
every other document raises. -/
def engineA : Nat → Nat → EngineOutcome :=
  fun _ d => if d = 1 then Except.ok "A" else Except.error "boom"

/-- A concrete state whose model cache is populated, used for witnesses. -/
def loadedState : AppState :=
  { cache := some 7, loadCount := 1, ocr_result := none, ocr_time := none,
    currentDoc := none, resultDoc := none, errorShown := false }

/-- Claim C1 is false on the code: with temp-file setup taking 1 tick and
the engine call taking 1 tick, the stored elapsed time is 2 ticks, not
the engine-only 1 tick — `start_time` at line 78 is read before the temp
file is created at lines 81-83. -/
theorem C1_counterexample :
    (runConversion [] 0 0 1 1 (Except.ok "x") true).stored = some ("x", 2) ∧
    (2 : Nat) ≠ 1 := by
  refine ⟨by decide, by decide⟩

/-- Claim C1 amended: the recorded elapsed time measures from the button
press to the end of the engine call, so it includes the creation and
writing of the temporary file and excludes its deletion: on every
successful conversion the stored pair is exactly
(text, setupDur + convertDur), independently of the deletion branch. -/
theorem C1_elapsed_spans_setup_and_convert
    (fs : FS) (tmpPath t0 setupDur convertDur : Nat) (text : String)
    (removeOk : Bool) :
    (runConversion fs tmpPath t0 setupDur convertDur (Except.ok text)
        removeOk).stored = some (text, setupDur + convertDur) := by
  have h : t0 + setupDur + convertDur - t0 = setupDur + convertDur := by omega
  cases removeOk <;> simp [runConversion, h]

/-- Claim C2 is false on the code: after uploading document 1, converting
it successfully to "A", and then uploading document 2, the store still
holds "A" (it was not cleared) and "A" is displayed alongside the newly
uploaded, not yet processed document 2. -/
theorem C2_counterexample :
    displayedResult (run engineA 9 [.upload 1, .clickConvert 1 2, .upload 2])
        = some "A" ∧
    (run engineA 9 [.upload 1, .clickConvert 1 2, .upload 2]).resultDoc = some 1 ∧
    (run engineA 9 [.upload 1, .clickConvert 1 2, .upload 2]).currentDoc = some 2 ∧
    (run engineA 9 [.upload 1, .clickConvert 1 2, .upload 2]).ocr_result ≠ none := by
  decide

/-- Claim C2 amended: uploading a new document does not clear the session
result store — the code only initializes the fields when absent (lines
58-62) and never clears them on upload — so the previous result remains
stored and is displayed alongside the newly uploaded, not yet processed
document until the next successful conversion replaces it. -/
theorem C2_upload_preserves_store (engine : Nat → Nat → EngineOutcome)
    (fresh : Nat) (s : AppState) (d : Nat) :
    (step engine fresh s (.upload d)).ocr_result = s.ocr_result ∧
    (step engine fresh s (.upload d)).ocr_time = s.ocr_time ∧
    (step engine fresh s (.upload d)).resultDoc = s.resultDoc ∧
    (step engine fresh s (.upload d)).currentDoc = some d ∧
    displayedResult (step engine fresh s (.upload d)) = s.ocr_result := by
  cases s with
  | mk c lc r t cd rd es => cases c <;> simp [step, load_model, displayedResult]

/-- Claim C3: deletion of the temporary file is triggered on every exit
path of the conversion scope (engine success or engine failure, whether
or not the removal itself succeeds), and whenever the removal succeeds
the freshly created temporary file does not exist afterwards. -/
theorem C3_cleanup (fs : FS) (tmpPath t0 setupDur convertDur : Nat)
    (outcome : EngineOutcome) (removeOk : Bool) (hfresh : tmpPath ∉ fs) :
    (runConversion fs tmpPath t0 setupDur convertDur outcome
        removeOk).removeAttempted = true ∧
    (removeOk = true →
      tmpPath ∉ (runConversion fs tmpPath t0 setupDur convertDur outcome
        removeOk).fs) := by
  cases outcome <;> cases removeOk <;>
    simp [runConversion, List.erase_cons_head] <;> exact hfresh

/-- Witness for C3 at a concrete input. -/
theorem C3_cleanup_witness :
    (0 : Nat) ∉ ([] : FS) ∧
    ((runConversion [] 0 0 1 1 (Except.ok "x") true).removeAttempted = true ∧
      (true = true →
        (0 : Nat) ∉ (runConversion [] 0 0 1 1 (Except.ok "x") true).fs)) :=
  ⟨by decide, C3_cleanup [] 0 0 1 1 (Except.ok "x") true (by decide)⟩

/-- Claim C4 is false on the code: when `os.remove` fails after a
successful engine call, the exception propagates uncaught out of the
handler — `raised` is true at this concrete input, while the claim says
a deletion failure does not raise. -/
theorem C4_counterexample :
    (runConversion [] 0 0 1 1 (Except.ok "x") false).raised = true := by decide

/-- Claim C4 amended: a deletion failure raises out of the handler (the
code does not guard the `os.remove` in the `finally` block), but it does
not erase the successful outcome: the result was written to the session
store at lines 93-94, before the `finally` block, and remains stored. -/
theorem C4_deletion_failure_keeps_result
    (fs : FS) (tmpPath t0 setupDur convertDur : Nat) (text : String) :
    (runConversion fs tmpPath t0 setupDur convertDur (Except.ok text)
        false).stored = some (text, setupDur + convertDur) ∧
    (runConversion fs tmpPath t0 setupDur convertDur (Except.ok text)
        false).raised = true := by
  have h : t0 + setupDur + convertDur - t0 = setupDur + convertDur := by omega
  simp [runConversion, h]

/-- Claim C8: the markdown and text download payloads are byte-identical —
both are exactly the stored result text. -/
theorem C8_export_roundtrip (fileName text : String) :
    (md_export fileName text).2 = text ∧ (txt_export fileName text).2 = text ∧
    (md_export fileName text).2 = (txt_export fileName text).2 :=
  ⟨rfl, rfl, rfl⟩

/-- Once the cache is populated, every further `load_model` call returns
the cached handle and leaves the process state unchanged. -/
lemma loadN_cached (fresh h0 : Nat) (n : Nat) (s : AppState)
    (hc : s.cache = some h0) :
    loadN fresh n s = (List.replicate n h0, s) := by
  induction n with
  | zero => simp [loadN]
  | succ n ih => simp [loadN, load_model, hc, ih, List.replicate_succ]

/-- Claim C5: the engine loader is idempotent within one process — over
any number N of calls starting from a fresh process, the resource-heavy
construction runs exactly once (hence at most once) and every call
returns the identical cached handle. -/
theorem C5_load_model_idempotent (fresh N : Nat) (hN : 1 ≤ N) :
    (loadN fresh N initState).1 = List.replicate N fresh ∧
    (loadN fresh N initState).2.loadCount = 1 := by
  obtain ⟨n, rfl⟩ : ∃ n, N = n + 1 := ⟨N - 1, by omega⟩
  have hrec := loadN_cached fresh fresh n
    { cache := some fresh, loadCount := 1, ocr_result := none,
      ocr_time := none, currentDoc := none, resultDoc := none,
      errorShown := false } rfl
  simp [loadN, load_model, initState, hrec, List.replicate_succ]

/-- Witness for C5 at a concrete input. -/
theorem C5_witness :
    1 ≤ 3 ∧ ((loadN 5 3 initState).1 = List.replicate 3 5 ∧
      (loadN 5 3 initState).2.loadCount = 1) :=
  ⟨by decide, C5_load_model_idempotent 5 3 (by decide)⟩

/-- Claim C6: an engine failure on document `a` is caught — the rerun
completes with `st.error` shown, the store and the cached handle are
unchanged — and a subsequent successful conversion of document `b`, via
the same cached handle, stores and displays the text of `b`. -/
theorem C6_failure_isolated (engine : Nat → Nat → EngineOutcome)
    (fresh h a b d1 d2 d3 d4 : Nat) (tB eMsg : String) (s : AppState)
    (hc : s.cache = some h)
    (ha : engine h a = Except.error eMsg)
    (hb : engine h b = Except.ok tB) :
    (runFrom engine fresh s [.upload a, .clickConvert d1 d2]).ocr_result
        = s.ocr_result ∧
    (runFrom engine fresh s [.upload a, .clickConvert d1 d2]).cache = some h ∧
    (runFrom engine fresh s [.upload a, .clickConvert d1 d2]).errorShown
        = true ∧
    (runFrom engine fresh s [.upload a, .clickConvert d1 d2, .upload b,
        .clickConvert d3 d4]).ocr_result = some tB ∧
    displayedResult (runFrom engine fresh s [.upload a, .clickConvert d1 d2,
        .upload b, .clickConvert d3 d4]) = some tB ∧
    (runFrom engine fresh s [.upload a, .clickConvert d1 d2, .upload b,
        .clickConvert d3 d4]).cache = some h := by
  cases s with
  | mk c lc r t cd rd es =>
      subst hc
      simp [runFrom, step, load_model, displayedResult, ha, hb]

/-- Witness for C6 at a concrete input. -/
theorem C6_witness :
    loadedState.cache = some 7 ∧ engineA 7 2 = Except.error "boom" ∧
    engineA 7 1 = Except.ok "A" ∧
    ((runFrom engineA 9 loadedState [.upload 2, .clickConvert 1 1]).ocr_result
        = loadedState.ocr_result ∧
      (runFrom engineA 9 loadedState [.upload 2, .clickConvert 1 1]).cache
        = some 7 ∧
      (runFrom engineA 9 loadedState [.upload 2, .clickConvert 1 1]).errorShown
        = true ∧
      (runFrom engineA 9 loadedState [.upload 2, .clickConvert 1 1, .upload 1,
        .clickConvert 1 1]).ocr_result = some "A" ∧
      displayedResult (runFrom engineA 9 loadedState [.upload 2,
        .clickConvert 1 1, .upload 1, .clickConvert 1 1]) = some "A" ∧
      (runFrom engineA 9 loadedState [.upload 2, .clickConvert 1 1, .upload 1,
        .clickConvert 1 1]).cache = some 7) :=
  ⟨rfl, rfl, rfl,
    C6_failure_isolated engineA 9 7 2 1 1 1 1 1 "A" "boom" loadedState
      rfl rfl rfl⟩

/-- A concrete state with a populated cache and an uploaded document,
used for witnesses. -/
def uploadedState : AppState :=
  { loadedState with currentDoc := some 2 }

/-- Claim C7: a failed conversion stores no result for that attempt —
the session store and the ghost provenance are unchanged, the session
remains in the document-uploaded state, an error signal is emitted for
presentation, and if no result was stored before the attempt then none
is stored after it. -/
theorem C7_failure_stores_nothing (engine : Nat → Nat → EngineOutcome)
    (fresh h d d1 d2 : Nat) (eMsg : String) (s : AppState)
    (hc : s.cache = some h) (hd : s.currentDoc = some d)
    (he : engine h d = Except.error eMsg) :
    (step engine fresh s (.clickConvert d1 d2)).ocr_result = s.ocr_result ∧
    (step engine fresh s (.clickConvert d1 d2)).ocr_time = s.ocr_time ∧
    (step engine fresh s (.clickConvert d1 d2)).resultDoc = s.resultDoc ∧
    (step engine fresh s (.clickConvert d1 d2)).currentDoc = some d ∧
    (step engine fresh s (.clickConvert d1 d2)).errorShown = true ∧
    (s.ocr_result = none →
      (step engine fresh s (.clickConvert d1 d2)).ocr_result = none) := by
  cases s with
  | mk c lc r t cd rd es =>
      subst hc
      subst hd
      simp [step, load_model, he]

/-- Witness for C7 at a concrete input. -/
theorem C7_witness :
    uploadedState.cache = some 7 ∧ uploadedState.currentDoc = some 2 ∧
    engineA 7 2 = Except.error "boom" ∧
    ((step engineA 9 uploadedState (.clickConvert 1 1)).ocr_result
        = uploadedState.ocr_result ∧
      (step engineA 9 uploadedState (.clickConvert 1 1)).ocr_time
        = uploadedState.ocr_time ∧
      (step engineA 9 uploadedState (.clickConvert 1 1)).resultDoc
        = uploadedState.resultDoc ∧
      (step engineA 9 uploadedState (.clickConvert 1 1)).currentDoc = some 2 ∧
      (step engineA 9 uploadedState (.clickConvert 1 1)).errorShown = true ∧
      (uploadedState.ocr_result = none →
        (step engineA 9 uploadedState (.clickConvert 1 1)).ocr_result
          = none)) :=
  ⟨rfl, rfl, rfl,
    C7_failure_stores_nothing engineA 9 7 2 1 1 "boom" uploadedState
      rfl rfl rfl⟩

/-- Length relation between the splitting accumulator and the token
counter: the tokens still to be emitted are the current partial one (when
nonempty) plus the tokens that start later. -/
lemma pySplitAux_length (cs : List Char) :
    ∀ cur : List Char,
      (pySplitAux cs cur).length
        = (if cur.isEmpty then 0 else 1)
            + wsTokenCountAux cs (!cur.isEmpty) := by
  induction cs with
  | nil => intro cur; cases cur <;> simp [pySplitAux, wsTokenCountAux]
  | cons c rest ih =>
      intro cur
      by_cases hw : c.isWhitespace
      · cases cur <;> simp [pySplitAux, wsTokenCountAux, hw, ih] <;> omega
      · cases cur <;> simp [pySplitAux, wsTokenCountAux, hw, ih]

/-- The number of tokens of Python `str.split()` is the number of maximal
whitespace-separated tokens. -/
lemma pySplit_length (s : String) :
    (pySplit s).length = wsTokenCount s.data := by
  simp [pySplit, wsTokenCount, pySplitAux_length]

/-- A concrete state holding a stored conversion result, used for
witnesses. -/
def convertedState : AppState :=
  { loadedState with
    ocr_result := some "ab c", ocr_time := some 2,
    currentDoc := some 1, resultDoc := some 1 }

/-- Claim C9: the displayed statistics are computed from the stored
result text — the character count equals the length of the text and the
word count equals the number of maximal whitespace-separated tokens of
the text. -/
theorem C9_stats_from_stored_text (s : AppState) (text : String) (t : Nat)
    (hr : s.ocr_result = some text) (ht : s.ocr_time = some t) :
    displayedStats s = some (t, text.length, wsTokenCount text.data) := by
  simp [displayedStats, hr, ht, pySplit_length]

/-- Witness for C9 at a concrete input. -/
theorem C9_witness :
    convertedState.ocr_result = some "ab c" ∧
    convertedState.ocr_time = some 2 ∧
    displayedStats convertedState
      = some (2, ("ab c").length, wsTokenCount ("ab c").data) :=
  ⟨rfl, rfl, C9_stats_from_stored_text convertedState "ab c" 2 rfl rfl⟩

/-- One rerun keeps `ocr_result` and `ocr_time` both absent or both
present: uploads and failures touch neither, success writes both. -/
lemma step_result_time_consistent (engine : Nat → Nat → EngineOutcome)
    (fresh : Nat) (s : AppState) (e : Event)
    (h : s.ocr_result = none ↔ s.ocr_time = none) :
    (step engine fresh s e).ocr_result = none
      ↔ (step engine fresh s e).ocr_time = none := by
  cases s with
  | mk c lc r t cd rd es =>
      cases e with
      | upload d => cases c <;> simpa [step, load_model] using h
      | rerun => cases c <;> simpa [step, load_model] using h
      | clickConvert d1 d2 =>
          cases c with
          | none =>
              cases cd with
              | none => simpa [step, load_model] using h
              | some d =>
                  cases heng : engine fresh d with
                  | ok text => simp [step, load_model, heng]
                  | error eMsg => simpa [step, load_model, heng] using h
          | some h0 =>
              cases cd with
              | none => simpa [step, load_model] using h
              | some d =>
                  cases heng : engine h0 d with
                  | ok text => simp [step, load_model, heng]
                  | error eMsg => simpa [step, load_model, heng] using h

/-- Claim C10: after every sequence of events, the stored result text and
the stored timing are absent or present together — they are initialized
together and only ever written together on a successful conversion. -/
theorem C10_result_time_consistent (engine : Nat → Nat → EngineOutcome)
    (fresh : Nat) (events : List Event) :
    ((run engine fresh events).ocr_result = none
      ↔ (run engine fresh events).ocr_time = none) := by
  suffices hgen : ∀ s : AppState, (s.ocr_result = none ↔ s.ocr_time = none) →
      ((runFrom engine fresh s events).ocr_result = none
        ↔ (runFrom engine fresh s events).ocr_time = none) by
    exact hgen initState (by simp [initState])
  induction events with
  | nil => intro s h; simpa [runFrom] using h
  | cons e rest ih =>
      intro s h
      simpa [runFrom] using ih (step engine fresh s e)
        (step_result_time_consistent engine fresh s e h)

end MarkerApp
